import Mathlib

/-!
Shallow embedding of the chef-claude frontend client:
- the data-message handler `handleData` (src/unnamed/part_000, `VoiceAssistantUI`),
- the timer hook operations (`useTimers`: addTimer / dismissTimer / expiry check),
- `formatTimeLeft`,
- `toggleGroceryItem`,
- the token endpoint (src/app/api/token/route.ts, `GET`).

JavaScript runtime values coming out of `JSON.parse` are modelled by `JValue`;
an extra `undefined` constructor models the result of reading an absent object
property (it never occurs in parsed JSON itself).  JSON numbers are modelled as
integers (the protocol carries integer seconds, counts and timestamps).
`JSON.parse` failure is modelled at the boundary by an `Option JValue` payload
(`none` = the parse threw, so the `catch` leaves all state untouched).
-/

inductive JValue where
  | undefined : JValue
  | null : JValue
  | bool : Bool → JValue
  | num : Int → JValue
  | str : String → JValue
  | arr : List JValue → JValue
  | obj : List (String × JValue) → JValue


/-- JavaScript truthiness of a value (`undefined`, `null`, `false`, `0` and
`""` are falsy; arrays and objects are always truthy). -/
def truthy : JValue → Bool
  | .undefined => false
  | .null => false
  | .bool b => b
  | .num n => n != 0
  | .str s => s != ""
  | .arr _ => true
  | .obj _ => true

/-- JavaScript `a || b`: `a` when truthy, else `b`. -/
def jor (a b : JValue) : JValue := if truthy a then a else b

/-- Property read `v.key`.  On an object, the last binding of the key wins
(matching what `JSON.parse` produces for duplicate keys); on any non-object
the read yields `undefined`.  (Reads on `null`/`undefined` throw in JS; every
site in the handler where that could happen ends with the state unchanged, and
the model returns the unchanged state there as well.) -/
def jGetU (v : JValue) (key : String) : JValue :=
  match v with
  | .obj fields => (fields.foldl (fun acc kv => if kv.1 = key then some kv.2 else acc) none).getD .undefined
  | _ => .undefined

/-- `msg.type === s` — strict equality against a string literal. -/
def typeIs (msg : JValue) (s : String) : Bool :=
  match jGetU msg "type" with
  | .str t => t == s
  | _ => false

/-- Numeric view of a value; `none` models `NaN` arising from arithmetic on a
non-numeric value such as an absent field (the protocol's `duration_seconds`
is a number; JS string-to-number coercion is outside the model). -/
def jsNum : JValue → Option Int
  | .num n => some n
  | _ => none

/-- A running timer (`interface Timer`).  `endsAt`/`duration` are `none` when
the arithmetic `Date.now() + duration_seconds * 1000` produced `NaN`. -/
structure Timer where
  id : Nat
  label : JValue
  endsAt : Option Int
  duration : Option Int


/-- The recipe card state (`interface Recipe`).  Fields hold the raw runtime
values the handler stores; fields never assigned are `undefined`. -/
structure Recipe where
  title : JValue
  servings : JValue
  prepTimeMinutes : JValue
  ingredients : JValue
  steps : JValue
  currentStep : JValue := .undefined
  tutorialUrl : JValue := .undefined
  tutorialTitle : JValue := .undefined
  tutorialSource : JValue := .undefined
  ogImage : JValue := .undefined
  ogTitle : JValue := .undefined
  ogDescription : JValue := .undefined


/-- One grocery group (`interface GroceryItem`).  `checked` is the list of
checked ingredient strings; the decoder only accepts string entries, which is
what the toggle/render code consumes. -/
structure GroceryItem where
  recipe : JValue
  ingredients : JValue
  checked : List String


/-- The UI state held by `VoiceAssistantUI` plus the `useTimers` hook state
(`timers` list and the `nextId` ref). -/
structure UIState where
  timers : List Timer
  nextId : Nat
  cameraRequest : Bool
  recipe : Option Recipe
  dishSuggestions : JValue
  groceryList : List GroceryItem
  groceryListOpen : Bool


/-- The initial state of the component's hooks. -/
def initialUIState : UIState :=
  { timers := [], nextId := 0, cameraRequest := false, recipe := none,
    dishSuggestions := .arr [], groceryList := [], groceryListOpen := false }

/-- `addTimer(label, durationSeconds)`: appends a timer with the next id from
the counter and `endsAt = Date.now() + durationSeconds * 1000`. -/
def addTimer (now : Int) (label : JValue) (durationSeconds : Option Int) (st : UIState) : UIState :=
  { st with
    timers := st.timers ++
      [{ id := st.nextId, label := label,
         endsAt := durationSeconds.map (fun d => now + d * 1000),
         duration := durationSeconds }],
    nextId := st.nextId + 1 }

/-- `dismissTimer(id)`: `setTimers(prev => prev.filter(t => t.id !== id))`. -/
def dismissTimer (id : Nat) (st : UIState) : UIState :=
  { st with timers := st.timers.filter (fun t => t.id ≠ id) }

/-- `t.endsAt <= now` (false on a `NaN` deadline, as in JS). -/
def timerExpired (now : Int) (t : Timer) : Bool :=
  match t.endsAt with
  | some e => e ≤ now
  | none => false

/-- `t.endsAt > now` (false on a `NaN` deadline, as in JS). -/
def timerLive (now : Int) (t : Timer) : Bool :=
  match t.endsAt with
  | some e => now < e
  | none => false

/-- The expiry-check effect of `useTimers`: collect the expired timers, and if
there are any, play one alarm per expired timer and keep only timers whose
deadline is strictly in the future.  Returns the new state and the labels of
the alarms played. -/
def checkExpired (now : Int) (st : UIState) : UIState × List JValue :=
  let expired := st.timers.filter (timerExpired now)
  if expired.isEmpty then (st, [])
  else ({ st with timers := st.timers.filter (timerLive now) }, expired.map (fun t => t.label))

/-- `s.padStart(2, "0")`. -/
def padStartTwoZero (s : String) : String :=
  if s.length < 2 then String.mk (List.replicate (2 - s.length) '0') ++ s else s

/-- `formatTimeLeft(endsAt)` with `Date.now()` made explicit:
`left = Math.max(0, Math.ceil((endsAt - now) / 1000))`, then
`Math.floor(left / 60)` minutes and `left % 60` seconds, seconds padded to two
digits.  Over integers, `Math.ceil(d / 1000)` is `(d + 999) / 1000` with the
floor division `/` of `Int`. -/
def formatTimeLeft (now : Int) (endsAt : Int) : String :=
  let left : Int := max 0 ((endsAt - now + 999) / 1000)
  let m : Int := left / 60
  let s : Int := left % 60
  toString m ++ ":" ++ padStartTwoZero (toString s)

/-- `checked.includes(i) ? checked.filter(c => c !== i) : [...checked, i]`. -/
def toggleChecked (checked : List String) (ingredient : String) : List String :=
  if checked.contains ingredient then checked.filter (fun c => c ≠ ingredient)
  else checked ++ [ingredient]

/-- `toggleGroceryItem(recipeIdx, ingredient)`: copy the list, replace group
`recipeIdx` with a copy whose `checked` list has the ingredient toggled.  (An
out-of-range index throws in JS; the model returns the list unchanged, and the
theorems only use in-range indices.) -/
def toggleGroceryItem (prev : List GroceryItem) (recipeIdx : Nat) (ingredient : String) :
    List GroceryItem :=
  match prev.get? recipeIdx with
  | none => prev
  | some group =>
    prev.set recipeIdx { group with checked := toggleChecked group.checked ingredient }

/-- Decode one entry of `msg.items` as the handler does:
`{ recipe: item.recipe || "", ingredients: item.ingredients || [], checked: item.checked || [] }`.
`none` models a thrown `TypeError` (property read on `null`, or a `checked`
value the UI could not consume as a list of strings). -/
def decodeItem (item : JValue) : Option GroceryItem :=
  match item with
  | .null => none
  | .undefined => none
  | _ =>
    match jor (jGetU item "checked") (.arr []) with
    | .arr cs => do
      let checked ← cs.mapM (fun c => match c with | .str s => some s | _ => none)
      some { recipe := jor (jGetU item "recipe") (.str ""),
             ingredients := jor (jGetU item "ingredients") (.arr []),
             checked := checked }
    | _ => none

/-- `(msg.items || []).map(decodeItem)`; `none` models the `TypeError` thrown
by `.map` on a truthy non-array (the surrounding `try` then discards every
update). -/
def decodeItems (itemsOrEmpty : JValue) : Option (List GroceryItem) :=
  match itemsOrEmpty with
  | .arr xs => xs.mapM decodeItem
  | _ => none

/-- The `topic === "recipe"` arm of the handler. -/
def recipeBranch (msg : JValue) (st : UIState) : UIState :=
  if typeIs msg "recipe_start" then
    { st with
      recipe := some
        { title := jGetU msg "title",
          servings := jor (jGetU msg "servings") (.num 1),
          prepTimeMinutes := jor (jGetU msg "prep_time_minutes") (.num 0),
          ingredients := jor (jGetU msg "ingredients") (.arr []),
          steps := jor (jGetU msg "steps") (.arr []) },
      dishSuggestions := .arr [] }
  else if typeIs msg "recipe_refresh" then
    { st with
      recipe := st.recipe.map (fun p =>
        { p with
          title := jor (jGetU msg "title") p.title,
          ingredients := jor (jGetU msg "ingredients") p.ingredients,
          steps := jor (jGetU msg "steps") p.steps }) }
  else if typeIs msg "step_update" then
    { st with recipe := st.recipe.map (fun p => { p with currentStep := jGetU msg "step_number" }) }
  else if typeIs msg "recipe_update" then
    { st with
      recipe := st.recipe.map (fun p =>
        { p with
          tutorialUrl := jGetU msg "tutorial_url",
          tutorialTitle := jGetU msg "tutorial_title",
          tutorialSource := jGetU msg "tutorial_source",
          ogImage := jGetU msg "og_image",
          ogTitle := jGetU msg "og_title",
          ogDescription := jGetU msg "og_description" }) }
  else if typeIs msg "recipe_end" then
    { st with recipe := none }
  else st

/-- The `topic === "grocery_list"` arm of the handler: the first `if` replaces
the list on `grocery_list_update` or `grocery_list_show` (a decode failure is
the thrown `TypeError`, which aborts the whole handler), the second `if` opens
the panel on `grocery_list_show`. -/
def groceryBranch (msg : JValue) (st : UIState) : UIState :=
  let afterList : Option UIState :=
    if typeIs msg "grocery_list_update" || typeIs msg "grocery_list_show" then
      (decodeItems (jor (jGetU msg "items") (.arr []))).map
        (fun items => { st with groceryList := items })
    else some st
  match afterList with
  | none => st
  | some st1 =>
    if typeIs msg "grocery_list_show" then { st1 with groceryListOpen := true } else st1

/-- `handleData`: decode the payload (`none` = `JSON.parse` threw, so the
`catch` leaves everything unchanged), then dispatch on the topic string and
the message's `type` field exactly as the `if`/`else if` chain does. -/
def handleData (now : Int) (topic : Option String) (payload : Option JValue) (st : UIState) :
    UIState :=
  match payload with
  | none => st
  | some msg =>
    if topic = some "timer" ∧ typeIs msg "set_timer" then
      addTimer now (jGetU msg "label") (jsNum (jGetU msg "duration_seconds")) st
    else if topic = some "camera_request" ∧ typeIs msg "request_camera" then
      { st with cameraRequest := true }
    else if topic = some "recipe" then
      recipeBranch msg st
    else if topic = some "suggestions" ∧ typeIs msg "dish_suggestions" then
      { st with dishSuggestions := jor (jGetU msg "options") (.arr []) }
    else if topic = some "grocery_list" then
      groceryBranch msg st
    else st

/-! ## The token endpoint (src/app/api/token/route.ts) -/

/-- `!v` on a `process.env` entry: missing or empty. -/
def envFalsy : Option String → Bool
  | none => true
  | some s => s == ""

/-- The two response shapes `GET` can produce: the 500 error JSON, or the
`{ token, url }` JSON. -/
inductive TokenResult where
  | errorResp : Nat → String → TokenResult
  | okResp : String → String → TokenResult


/-- Whether a response carries a minted token. -/
def mintsToken : TokenResult → Bool
  | .errorResp _ _ => false
  | .okResp _ _ => true

/-- The token route `GET`, with the environment and the SDK-minted JWT made
explicit: if any of the three credentials is missing or empty, return the 500
error without minting; otherwise return the minted token and the configured
URL. -/
def tokenRouteGET (apiKey apiSecret livekitUrl : Option String) (mintedJwt : String) :
    TokenResult :=
  if envFalsy apiKey || envFalsy apiSecret || envFalsy livekitUrl then
    .errorResp 500 "LiveKit credentials not configured"
  else
    .okResp mintedJwt (livekitUrl.getD "")


/-- The timer-list invariant maintained by `useTimers`: every stored id is
below the `nextId` counter, and ids are pairwise distinct. -/
def timersWF (st : UIState) : Prop :=
  (∀ t ∈ st.timers, t.id < st.nextId) ∧ (st.timers.map Timer.id).Nodup

/-- The (topic, type) combinations the handler's `if`/`else if` chain reacts
to — the five control categories. -/
def reactsTo (topic : Option String) (msg : JValue) : Prop :=
  (topic = some "timer" ∧ typeIs msg "set_timer" = true) ∨
  (topic = some "camera_request" ∧ typeIs msg "request_camera" = true) ∨
  (topic = some "recipe" ∧
    (typeIs msg "recipe_start" = true ∨ typeIs msg "recipe_refresh" = true ∨
     typeIs msg "step_update" = true ∨ typeIs msg "recipe_update" = true ∨
     typeIs msg "recipe_end" = true)) ∨
  (topic = some "suggestions" ∧ typeIs msg "dish_suggestions" = true) ∨
  (topic = some "grocery_list" ∧
    (typeIs msg "grocery_list_update" = true ∨ typeIs msg "grocery_list_show" = true))

/-! ## Theorems -/

/-- C2: a GET on the token endpoint returns the 500 error JSON and mints no
token when any of the three LiveKit environment variables is missing or
empty; otherwise it returns the minted token together with a `url` field
equal to the configured `LIVEKIT_URL`. -/
theorem tokenRouteGET_spec (apiKey apiSecret livekitUrl : Option String) (jwt : String) :
    ((envFalsy apiKey ∨ envFalsy apiSecret ∨ envFalsy livekitUrl) →
      tokenRouteGET apiKey apiSecret livekitUrl jwt =
        .errorResp 500 "LiveKit credentials not configured" ∧
      mintsToken (tokenRouteGET apiKey apiSecret livekitUrl jwt) = false) ∧
    (∀ u, livekitUrl = some u →
      envFalsy apiKey = false → envFalsy apiSecret = false → envFalsy livekitUrl = false →
      tokenRouteGET apiKey apiSecret livekitUrl jwt = .okResp jwt u) := by
  constructor
  · intro h
    have hcond : (envFalsy apiKey || envFalsy apiSecret || envFalsy livekitUrl) = true := by
      rcases h with h | h | h <;> simp [h]
    simp [tokenRouteGET, hcond, mintsToken]
  · intro u hu h1 h2 h3
    subst hu
    simp [tokenRouteGET, h1, h2, h3]

/-- Witness for C2 at concrete environments: a missing key yields the 500
error, a fully configured environment yields the token and the URL. -/
theorem tokenRouteGET_spec_witness :
    tokenRouteGET none (some "sec") (some "wss://lk.example") "tok" =
      .errorResp 500 "LiveKit credentials not configured" ∧
    tokenRouteGET (some "key") (some "sec") (some "wss://lk.example") "tok" =
      .okResp "tok" "wss://lk.example" := by
  constructor
  · exact ((tokenRouteGET_spec none (some "sec") (some "wss://lk.example") "tok").1
      (Or.inl rfl)).1
  · exact (tokenRouteGET_spec (some "key") (some "sec") (some "wss://lk.example") "tok").2
      "wss://lk.example" rfl rfl rfl rfl

/-- C3: a payload whose bytes fail to parse as JSON (the `JSON.parse` throw is
caught) leaves every piece of UI state unchanged. -/
theorem handleData_parse_failure (now : Int) (topic : Option String) (st : UIState) :
    handleData now topic none st = st := rfl

/-- Witness for C3 at a concrete topic and state. -/
theorem handleData_parse_failure_witness :
    handleData 0 (some "recipe") none initialUIState = initialUIState :=
  handleData_parse_failure 0 (some "recipe") initialUIState

/-- Two-digit zero-padding of the decimal rendering of any natural below 60. -/
theorem padTwo_length_nat : ∀ n : Nat, n < 60 → (padStartTwoZero (Nat.repr n)).length = 2 := by
  decide

/-- Rendering a nonnegative integer is rendering its natural value. -/
theorem toString_int_nonneg (s : Int) (h : 0 ≤ s) : toString s = Nat.repr s.toNat := by
  obtain ⟨n, rfl⟩ := Int.eq_ofNat_of_zero_le h
  rfl

/-- C4: `formatTimeLeft` shows `max 0 ⌈(endsAt - now) / 1000⌉` seconds split
as minutes and seconds, the seconds field lying in `[0, 59]` and zero-padded
to exactly two digits; an expired deadline renders as `"0:00"`, and the total
is never negative. -/
theorem formatTimeLeft_spec (now endsAt : Int) :
    ∃ q m s : Int,
      (1000 * (q - 1) < endsAt - now ∧ endsAt - now ≤ 1000 * q) ∧
      (0 ≤ m ∧ 0 ≤ s ∧ s ≤ 59 ∧ 60 * m + s = max 0 q) ∧
      formatTimeLeft now endsAt = toString m ++ ":" ++ padStartTwoZero (toString s) ∧
      (padStartTwoZero (toString s)).length = 2 ∧
      (endsAt ≤ now → formatTimeLeft now endsAt = "0:00") := by
  refine ⟨(endsAt - now + 999) / 1000,
    max 0 ((endsAt - now + 999) / 1000) / 60,
    max 0 ((endsAt - now + 999) / 1000) % 60,
    ⟨?_, ?_⟩, ⟨?_, ?_, ?_, ?_⟩, rfl, ?_, ?_⟩
  · omega
  · omega
  · omega
  · omega
  · omega
  · omega
  · have h0 : 0 ≤ max 0 ((endsAt - now + 999) / 1000) % 60 := by omega
    have h59 : max 0 ((endsAt - now + 999) / 1000) % 60 < 60 := by omega
    rw [toString_int_nonneg _ h0]
    exact padTwo_length_nat _ (by omega)
  · intro hle
    have hmax : max 0 ((endsAt - now + 999) / 1000) = 0 := by omega
    simp only [formatTimeLeft, hmax]
    rfl

/-- Witness for C4: an expired deadline renders as `"0:00"`. -/
theorem formatTimeLeft_spec_witness : formatTimeLeft 5000 0 = "0:00" := by
  obtain ⟨q, m, s, hceil, hms, heq, hpad, hexp⟩ := formatTimeLeft_spec 5000 0
  exact hexp (by norm_num)

/-- The `type` field is a single string, so testing it against two different
literals cannot both succeed. -/
theorem typeIs_congr {msg : JValue} {s : String} (h : typeIs msg s = true) (t : String) :
    typeIs msg t = (s == t) := by
  unfold typeIs at h ⊢
  cases hj : jGetU msg "type" <;> rw [hj] at h <;> simp_all

/-- Dispatch reduction: a message on topic `recipe` goes to the recipe arm. -/
theorem handleData_recipe_topic (now : Int) (msg : JValue) (st : UIState) :
    handleData now (some "recipe") (some msg) st = recipeBranch msg st := by
  simp [handleData]

/-- Dispatch reduction: a message on topic `grocery_list` goes to the grocery
arm. -/
theorem handleData_grocery_topic (now : Int) (msg : JValue) (st : UIState) :
    handleData now (some "grocery_list") (some msg) st = groceryBranch msg st := by
  simp [handleData]

/-- Toggling flips membership of the ingredient in the checked list. -/
theorem toggleChecked_contains (c : List String) (x : String) :
    (toggleChecked c x).contains x = !(c.contains x) := by
  unfold toggleChecked
  by_cases h : c.contains x = true
  · rw [if_pos h, h, Bool.not_true, Bool.eq_false_iff]
    intro hc
    have hm := List.elem_iff.mp hc
    simp [List.mem_filter] at hm
  · rw [if_neg h, Bool.not_eq_true] at *
    rw [h, Bool.not_false]
    exact List.elem_iff.mpr (by simp)

/-- C9: `toggleGroceryItem` is an involution on membership in the checked
set — toggling the same (group, ingredient) twice restores whether the
ingredient is checked — and a single toggle leaves every other group, and the
group's own `recipe` and `ingredients`, untouched. -/
theorem toggleGroceryItem_spec (prev : List GroceryItem) (i : Nat) (ing : String)
    (h : i < prev.length) :
    (((toggleGroceryItem (toggleGroceryItem prev i ing) i ing).get? i).map
        (fun g => g.checked.contains ing) =
      (prev.get? i).map (fun g => g.checked.contains ing)) ∧
    (∀ j, j ≠ i → (toggleGroceryItem prev i ing).get? j = prev.get? j) ∧
    (((toggleGroceryItem prev i ing).get? i).map (fun g => g.recipe) =
      (prev.get? i).map (fun g => g.recipe)) ∧
    (((toggleGroceryItem prev i ing).get? i).map (fun g => g.ingredients) =
      (prev.get? i).map (fun g => g.ingredients)) ∧
    (toggleGroceryItem prev i ing).length = prev.length := by
  obtain ⟨g, hg⟩ : ∃ g, prev.get? i = some g := by
    cases hg : prev.get? i with
    | none => rw [List.get?_eq_none] at hg; omega
    | some g => exact ⟨g, rfl⟩
  have h1 : toggleGroceryItem prev i ing =
      prev.set i { g with checked := toggleChecked g.checked ing } := by
    unfold toggleGroceryItem; rw [hg]
  have hget1 : (prev.set i { g with checked := toggleChecked g.checked ing }).get? i =
      some { g with checked := toggleChecked g.checked ing } := by
    simp [List.get?_eq_getElem?, List.getElem?_set, h]
  have h2 : toggleGroceryItem (toggleGroceryItem prev i ing) i ing =
      (prev.set i { g with checked := toggleChecked g.checked ing }).set i
        { g with checked := toggleChecked (toggleChecked g.checked ing) ing } := by
    rw [h1]; unfold toggleGroceryItem; rw [hget1]
  have hlen : i < (prev.set i { g with checked := toggleChecked g.checked ing }).length := by
    simpa using h
  refine ⟨?_, ?_, ?_, ?_, ?_⟩
  · rw [h2, hg]
    have : ((prev.set i { g with checked := toggleChecked g.checked ing }).set i
        { g with checked := toggleChecked (toggleChecked g.checked ing) ing }).get? i =
        some { g with checked := toggleChecked (toggleChecked g.checked ing) ing } := by
      simp [List.get?_eq_getElem?, List.getElem?_set, hlen, h]
    rw [this]
    simp only [Option.map_some']
    rw [toggleChecked_contains, toggleChecked_contains, Bool.not_not]
  · intro j hj
    rw [h1]
    simp [List.get?_eq_getElem?, List.getElem?_set, hj.symm]
  · rw [h1, hget1, hg]
    rfl
  · rw [h1, hget1, hg]
    rfl
  · rw [h1]
    simp

/-- Witness for C9 at a concrete grocery list: double-toggling `"salt"` in the
only group restores its (un)checked status. -/
theorem toggleGroceryItem_spec_witness :
    (((toggleGroceryItem (toggleGroceryItem
          [{ recipe := .str "Soup", ingredients := .arr [.str "salt"], checked := [] }]
          0 "salt") 0 "salt").get? 0).map (fun g => g.checked.contains "salt") =
      (([{ recipe := .str "Soup", ingredients := .arr [.str "salt"], checked := [] }] :
          List GroceryItem).get? 0).map (fun g => g.checked.contains "salt")) :=
  (toggleGroceryItem_spec
    [{ recipe := .str "Soup", ingredients := .arr [.str "salt"], checked := [] }]
    0 "salt" (by simp)).1

/-- Filtering the timer list preserves the id invariant. -/
theorem timersWF_filter (st : UIState) (p : Timer → Bool) (h : timersWF st) :
    timersWF { st with timers := st.timers.filter p } := by
  obtain ⟨hb, hn⟩ := h
  constructor
  · intro t ht
    exact hb t (List.mem_of_mem_filter ht)
  · exact hn.sublist ((List.filter_sublist _).map Timer.id)

/-- C10: `addTimer` appends a timer carrying the current counter value as its
id and bumps the counter; under the invariant that counter value is fresh;
`dismissTimer id` removes exactly the timers with that id; and all three
timer-list operations preserve the distinct-ids invariant. -/
theorem useTimers_ids_spec (st : UIState) (now : Int) (label : JValue)
    (dur : Option Int) (id : Nat) :
    ((addTimer now label dur st).timers =
        st.timers ++ [{ id := st.nextId, label := label,
                        endsAt := dur.map (fun d => now + d * 1000), duration := dur }] ∧
      (addTimer now label dur st).nextId = st.nextId + 1) ∧
    (timersWF st → ∀ t ∈ st.timers, t.id ≠ st.nextId) ∧
    ((dismissTimer id st).timers = st.timers.filter (fun t => t.id ≠ id) ∧
      (∀ t ∈ st.timers, t.id ≠ id → t ∈ (dismissTimer id st).timers) ∧
      (∀ t ∈ (dismissTimer id st).timers, t.id ≠ id ∧ t ∈ st.timers)) ∧
    (timersWF st → timersWF (addTimer now label dur st) ∧ timersWF (dismissTimer id st) ∧
      timersWF (checkExpired now st).1) := by
  refine ⟨⟨rfl, rfl⟩, ?_, ⟨rfl, ?_, ?_⟩, ?_⟩
  · rintro ⟨hb, -⟩ t ht
    exact Nat.ne_of_lt (hb t ht)
  · intro t ht hne
    simp only [dismissTimer]
    exact List.mem_filter.mpr ⟨ht, by simpa using hne⟩
  · intro t ht
    simp only [dismissTimer] at ht
    have hm := List.mem_filter.mp ht
    exact ⟨by simpa using hm.2, hm.1⟩
  · intro hwf
    obtain ⟨hb, hn⟩ := hwf
    refine ⟨⟨?_, ?_⟩, timersWF_filter st _ ⟨hb, hn⟩, ?_⟩
    · intro t ht
      rcases List.mem_append.mp ht with hmem | hmem
      · exact Nat.lt_succ_of_lt (hb t hmem)
      · rcases List.mem_singleton.mp hmem with rfl
        exact Nat.lt_succ_self _
    · show ((st.timers ++ [_]).map Timer.id).Nodup
      rw [List.map_append, List.nodup_append]
      refine ⟨hn, by simp, ?_⟩
      intro a ha ha'
      simp only [List.map_cons, List.map_nil, List.mem_singleton] at ha'
      obtain ⟨t, hmem, rfl⟩ := List.mem_map.mp ha
      exact absurd (ha' ▸ hb t hmem) (lt_irrefl _)
    · by_cases he : (st.timers.filter (timerExpired now)).isEmpty
      · simpa [checkExpired, he] using And.intro hb hn
      · simpa [checkExpired, he] using timersWF_filter st (timerLive now) ⟨hb, hn⟩

/-- Witness for C10: adding a timer to a state with one existing timer keeps
the id invariant. -/
theorem useTimers_ids_spec_witness :
    timersWF (addTimer 0 (.str "pasta") (some 60)
      { timers := [{ id := 0, label := .str "eggs", endsAt := some 60000, duration := some 60 }],
        nextId := 1, cameraRequest := false, recipe := none, dishSuggestions := .arr [],
        groceryList := [], groceryListOpen := false }) :=
  ((useTimers_ids_spec
      { timers := [{ id := 0, label := .str "eggs", endsAt := some 60000, duration := some 60 }],
        nextId := 1, cameraRequest := false, recipe := none, dishSuggestions := .arr [],
        groceryList := [], groceryListOpen := false }
      0 (.str "pasta") (some 60) 0).2.2.2 (by constructor <;> simp)).1

/-- A timer cannot be both expired and strictly live at the same instant. -/
theorem not_live_of_expired (now : Int) (t : Timer) (h : timerExpired now t = true) :
    timerLive now t = false := by
  unfold timerExpired at h
  unfold timerLive
  cases he : t.endsAt <;> rw [he] at h <;> simp_all

/-- C6: after an expiry check, every timer whose deadline has passed is gone
(one alarm is played per expired timer, the alarms being exactly the expired
timers' labels), every timer strictly in the future is still there, and no
expired timer remains in the list. -/
theorem checkExpired_spec (now : Int) (st : UIState) :
    (∀ t ∈ st.timers, timerExpired now t = true → t ∉ (checkExpired now st).1.timers) ∧
    (∀ t ∈ st.timers, timerLive now t = true → t ∈ (checkExpired now st).1.timers) ∧
    (∀ t ∈ (checkExpired now st).1.timers, timerExpired now t = false) ∧
    (checkExpired now st).2 = (st.timers.filter (timerExpired now)).map (fun t => t.label) := by
  by_cases he : (st.timers.filter (timerExpired now)).isEmpty
  · have hnil : st.timers.filter (timerExpired now) = [] := List.isEmpty_iff.mp he
    have hall : ∀ t ∈ st.timers, timerExpired now t = false := by
      intro t ht
      by_contra hc
      have : t ∈ st.timers.filter (timerExpired now) :=
        List.mem_filter.mpr ⟨ht, by simpa using hc⟩
      simp [hnil] at this
    have hst : checkExpired now st = (st, []) := by simp [checkExpired, he]
    refine ⟨?_, ?_, ?_, ?_⟩
    · intro t ht hexp
      rw [hall t ht] at hexp
      cases hexp
    · intro t ht _
      rw [hst]
      exact ht
    · intro t ht
      rw [hst] at ht
      exact hall t ht
    · rw [hst, hnil]
      rfl
  · have hst : checkExpired now st =
        ({ st with timers := st.timers.filter (timerLive now) },
          (st.timers.filter (timerExpired now)).map (fun t => t.label)) := by
      simp [checkExpired, he]
    refine ⟨?_, ?_, ?_, ?_⟩
    · intro t ht hexp
      rw [hst]
      intro hmem
      have hl := (List.mem_filter.mp hmem).2
      rw [not_live_of_expired now t hexp] at hl
      cases hl
    · intro t ht hlive
      rw [hst]
      exact List.mem_filter.mpr ⟨ht, hlive⟩
    · intro t ht
      rw [hst] at ht
      have hl := (List.mem_filter.mp ht).2
      by_contra hc
      rw [not_live_of_expired now t (by simpa using hc)] at hl
      cases hl
    · rw [hst]

/-- Witness for C6: with one expired and one running timer, the expired one is
removed, the running one stays, and one alarm is played for the expired one. -/
theorem checkExpired_spec_witness :
    { id := 1, label := .str "rice", endsAt := some 90000, duration := some 90 } ∈
      (checkExpired 60000
        { timers := [{ id := 0, label := .str "eggs", endsAt := some 60000, duration := some 60 },
                     { id := 1, label := .str "rice", endsAt := some 90000, duration := some 90 }],
          nextId := 2, cameraRequest := false, recipe := none, dishSuggestions := .arr [],
          groceryList := [], groceryListOpen := false }).1.timers :=
  (checkExpired_spec 60000
      { timers := [{ id := 0, label := .str "eggs", endsAt := some 60000, duration := some 60 },
                   { id := 1, label := .str "rice", endsAt := some 90000, duration := some 90 }],
        nextId := 2, cameraRequest := false, recipe := none, dishSuggestions := .arr [],
        groceryList := [], groceryListOpen := false }).2.1
    { id := 1, label := .str "rice", endsAt := some 90000, duration := some 90 }
    (by simp) (by simp [timerLive])

/-- C5: a `recipe_start` message on topic `recipe` replaces the recipe state
with one whose title is the message's title, servings defaulting to 1 and prep
time to 0 on an absent or falsy field, ingredients and steps defaulting to
empty on an absent field, with no current step and no tutorial fields; the
dish suggestions are simultaneously cleared. -/
theorem recipeStart_spec (now : Int) (st : UIState) (msg : JValue)
    (htype : typeIs msg "recipe_start" = true) :
    ∃ r : Recipe,
      handleData now (some "recipe") (some msg) st =
        { st with recipe := some r, dishSuggestions := .arr [] } ∧
      r.title = jGetU msg "title" ∧
      (truthy (jGetU msg "servings") = false → r.servings = .num 1) ∧
      (truthy (jGetU msg "prep_time_minutes") = false → r.prepTimeMinutes = .num 0) ∧
      (jGetU msg "ingredients" = .undefined → r.ingredients = .arr []) ∧
      (jGetU msg "steps" = .undefined → r.steps = .arr []) ∧
      r.currentStep = .undefined ∧ r.tutorialUrl = .undefined ∧ r.tutorialTitle = .undefined ∧
      r.tutorialSource = .undefined ∧ r.ogImage = .undefined ∧ r.ogTitle = .undefined ∧
      r.ogDescription = .undefined := by
  refine ⟨{ title := jGetU msg "title",
            servings := jor (jGetU msg "servings") (.num 1),
            prepTimeMinutes := jor (jGetU msg "prep_time_minutes") (.num 0),
            ingredients := jor (jGetU msg "ingredients") (.arr []),
            steps := jor (jGetU msg "steps") (.arr []) },
    ?_, rfl, ?_, ?_, ?_, ?_, rfl, rfl, rfl, rfl, rfl, rfl, rfl⟩
  · rw [handleData_recipe_topic]
    unfold recipeBranch
    rw [if_pos htype]
  · intro hf
    simp [jor, hf]
  · intro hf
    simp [jor, hf]
  · intro hf
    rw [hf]
    rfl
  · intro hf
    rw [hf]
    rfl

/-- Witness for C5: a concrete `recipe_start` carrying only a title yields the
defaulted recipe card and clears the suggestions. -/
theorem recipeStart_spec_witness :
    ∃ r : Recipe,
      handleData 0 (some "recipe")
          (some (.obj [("type", .str "recipe_start"), ("title", .str "Lentil Soup")]))
          initialUIState =
        { initialUIState with recipe := some r, dishSuggestions := .arr [] } ∧
      r.title = jGetU (.obj [("type", .str "recipe_start"), ("title", .str "Lentil Soup")]) "title" ∧
      (truthy (jGetU (.obj [("type", .str "recipe_start"), ("title", .str "Lentil Soup")]) "servings") = false →
        r.servings = .num 1) ∧
      (truthy (jGetU (.obj [("type", .str "recipe_start"), ("title", .str "Lentil Soup")]) "prep_time_minutes") = false →
        r.prepTimeMinutes = .num 0) ∧
      (jGetU (.obj [("type", .str "recipe_start"), ("title", .str "Lentil Soup")]) "ingredients" = .undefined →
        r.ingredients = .arr []) ∧
      (jGetU (.obj [("type", .str "recipe_start"), ("title", .str "Lentil Soup")]) "steps" = .undefined →
        r.steps = .arr []) ∧
      r.currentStep = .undefined ∧ r.tutorialUrl = .undefined ∧ r.tutorialTitle = .undefined ∧
      r.tutorialSource = .undefined ∧ r.ogImage = .undefined ∧ r.ogTitle = .undefined ∧
      r.ogDescription = .undefined :=
  recipeStart_spec 0 initialUIState
    (.obj [("type", .str "recipe_start"), ("title", .str "Lentil Soup")]) rfl

/-- C8: when no recipe is displayed, `recipe_refresh`, `step_update` and
`recipe_update` messages are no-ops on the whole UI state. -/
theorem recipeNull_noop (now : Int) (st : UIState) (msg : JValue) (ty : String)
    (hrec : st.recipe = none)
    (hty : ty = "recipe_refresh" ∨ ty = "step_update" ∨ ty = "recipe_update")
    (htype : typeIs msg ty = true) :
    handleData now (some "recipe") (some msg) st = st := by
  rw [handleData_recipe_topic]
  unfold recipeBranch
  rcases hty with rfl | rfl | rfl <;>
    simp only [typeIs_congr htype] <;>
    cases st <;>
    simp_all

/-- C7: a `grocery_list_update` or `grocery_list_show` message replaces the
whole grocery list with the decoded items (each item's recipe name defaulting
to `""` and its ingredients and checked lists to empty when absent); only
`grocery_list_show` additionally opens the panel, `grocery_list_update` leaves
the open flag as it was. -/
theorem groceryList_spec (now : Int) (st : UIState) (msg : JValue) (items : List GroceryItem)
    (hdec : decodeItems (jor (jGetU msg "items") (.arr [])) = some items) :
    (typeIs msg "grocery_list_show" = true →
      handleData now (some "grocery_list") (some msg) st =
        { st with groceryList := items, groceryListOpen := true }) ∧
    (typeIs msg "grocery_list_update" = true →
      handleData now (some "grocery_list") (some msg) st =
        { st with groceryList := items }) ∧
    (∀ fields : List (String × JValue),
      truthy (jGetU (.obj fields) "recipe") = false →
      truthy (jGetU (.obj fields) "ingredients") = false →
      truthy (jGetU (.obj fields) "checked") = false →
      decodeItem (.obj fields) =
        some { recipe := .str "", ingredients := .arr [], checked := [] }) := by
  refine ⟨?_, ?_, ?_⟩
  · intro hshow
    rw [handleData_grocery_topic]
    unfold groceryBranch
    rw [hshow]
    simp [hdec]
  · intro hupd
    rw [handleData_grocery_topic]
    unfold groceryBranch
    rw [hupd, typeIs_congr hupd "grocery_list_show"]
    simp [hdec]
  · intro fields h1 h2 h3
    unfold decodeItem
    rw [show jor (jGetU (.obj fields) "checked") (.arr []) = .arr [] by simp [jor, h3]]
    simp [jor, h1, h2]
    rfl

/-- Witness for C7 at a concrete `grocery_list_show` message with one full and
one empty item. -/
theorem groceryList_spec_witness :
    handleData 0 (some "grocery_list")
        (some (.obj [("type", .str "grocery_list_show"),
          ("items", .arr
            [.obj [("recipe", .str "Soup"),
                   ("ingredients", .arr [.str "salt", .str "lentils"]),
                   ("checked", .arr [.str "salt"])],
             .obj []])]))
        initialUIState =
      { initialUIState with
        groceryList :=
          [{ recipe := .str "Soup", ingredients := .arr [.str "salt", .str "lentils"],
             checked := ["salt"] },
           { recipe := .str "", ingredients := .arr [], checked := [] }],
        groceryListOpen := true } :=
  (groceryList_spec 0 initialUIState
      (.obj [("type", .str "grocery_list_show"),
        ("items", .arr
          [.obj [("recipe", .str "Soup"),
                 ("ingredients", .arr [.str "salt", .str "lentils"]),
                 ("checked", .arr [.str "salt"])],
           .obj []])])
      [{ recipe := .str "Soup", ingredients := .arr [.str "salt", .str "lentils"],
         checked := ["salt"] },
       { recipe := .str "", ingredients := .arr [], checked := [] }]
      rfl).1 rfl

/-- The recipe arm touches only the `recipe` and `dishSuggestions` fields. -/
theorem recipeBranch_frame (msg : JValue) (st : UIState) :
    (recipeBranch msg st).timers = st.timers ∧
    (recipeBranch msg st).nextId = st.nextId ∧
    (recipeBranch msg st).cameraRequest = st.cameraRequest ∧
    (recipeBranch msg st).groceryList = st.groceryList ∧
    (recipeBranch msg st).groceryListOpen = st.groceryListOpen := by
  unfold recipeBranch
  split_ifs <;> exact ⟨rfl, rfl, rfl, rfl, rfl⟩

/-- The grocery arm touches only the `groceryList` and `groceryListOpen`
fields. -/
theorem groceryBranch_frame (msg : JValue) (st : UIState) :
    (groceryBranch msg st).timers = st.timers ∧
    (groceryBranch msg st).nextId = st.nextId ∧
    (groceryBranch msg st).cameraRequest = st.cameraRequest ∧
    (groceryBranch msg st).recipe = st.recipe ∧
    (groceryBranch msg st).dishSuggestions = st.dishSuggestions := by
  unfold groceryBranch
  by_cases h : (typeIs msg "grocery_list_update" || typeIs msg "grocery_list_show") = true
  · rw [if_pos h]
    cases hdec : decodeItems (jor (jGetU msg "items") (.arr [])) with
    | none => simp
    | some items =>
      simp only [Option.map_some']
      split_ifs <;> exact ⟨rfl, rfl, rfl, rfl, rfl⟩
  · rw [if_neg h]
    simp only
    split_ifs <;> exact ⟨rfl, rfl, rfl, rfl, rfl⟩

/-- C1: the handler dispatches on the topic string and the `type` field alone:
`timer`/`set_timer` adds a timer, `camera_request`/`request_camera` raises the
camera-request flag, the five `recipe` types go to the recipe arm (touching
only the recipe and suggestion state), `suggestions`/`dish_suggestions`
replaces the dish suggestions, the two `grocery_list` types go to the grocery
arm (touching only the grocery state), and every other (topic, type)
combination leaves the whole UI state unchanged. -/
theorem handleData_dispatch_spec (now : Int) (topic : Option String) (msg : JValue)
    (st : UIState) :
    (¬ reactsTo topic msg → handleData now topic (some msg) st = st) ∧
    (topic = some "timer" → typeIs msg "set_timer" = true →
      handleData now topic (some msg) st =
        addTimer now (jGetU msg "label") (jsNum (jGetU msg "duration_seconds")) st ∧
      (handleData now topic (some msg) st).timers.length = st.timers.length + 1) ∧
    (topic = some "camera_request" → typeIs msg "request_camera" = true →
      handleData now topic (some msg) st = { st with cameraRequest := true }) ∧
    (topic = some "recipe" →
      handleData now topic (some msg) st = recipeBranch msg st ∧
      (handleData now topic (some msg) st).timers = st.timers ∧
      (handleData now topic (some msg) st).cameraRequest = st.cameraRequest ∧
      (handleData now topic (some msg) st).groceryList = st.groceryList ∧
      (handleData now topic (some msg) st).groceryListOpen = st.groceryListOpen) ∧
    (topic = some "suggestions" → typeIs msg "dish_suggestions" = true →
      handleData now topic (some msg) st =
        { st with dishSuggestions := jor (jGetU msg "options") (.arr []) }) ∧
    (topic = some "grocery_list" →
      handleData now topic (some msg) st = groceryBranch msg st ∧
      (handleData now topic (some msg) st).timers = st.timers ∧
      (handleData now topic (some msg) st).cameraRequest = st.cameraRequest ∧
      (handleData now topic (some msg) st).recipe = st.recipe ∧
      (handleData now topic (some msg) st).dishSuggestions = st.dishSuggestions) := by
  refine ⟨?_, ?_, ?_, ?_, ?_, ?_⟩
  · intro hr
    rw [reactsTo] at hr
    push_neg at hr
    obtain ⟨hT, hC, hR, hS, hG⟩ := hr
    by_cases h1 : topic = some "timer"
    · have ht := hT h1
      simp only [Ne, Bool.not_eq_true] at ht
      subst h1
      simp [handleData, ht]
    · by_cases h2 : topic = some "camera_request"
      · have ht := hC h2
        simp only [Ne, Bool.not_eq_true] at ht
        subst h2
        simp [handleData, ht]
      · by_cases h3 : topic = some "recipe"
        · have ht := hR h3
          push_neg at ht
          obtain ⟨t1, t2, t3, t4, t5⟩ := ht
          simp only [Ne, Bool.not_eq_true] at t1 t2 t3 t4 t5
          subst h3
          simp only [handleData]
          rw [if_neg (by simp), if_neg (by simp), if_pos trivial]
          simp [recipeBranch, t1, t2, t3, t4, t5]
        · by_cases h4 : topic = some "suggestions"
          · have ht := hS h4
            simp only [Ne, Bool.not_eq_true] at ht
            subst h4
            simp [handleData, ht]
          · by_cases h5 : topic = some "grocery_list"
            · have ht := hG h5
              push_neg at ht
              obtain ⟨t1, t2⟩ := ht
              simp only [Ne, Bool.not_eq_true] at t1 t2
              subst h5
              simp only [handleData]
              rw [if_neg (by simp), if_neg (by simp), if_neg (by simp),
                if_neg (by simp), if_pos trivial]
              simp [groceryBranch, t1, t2]
            · simp [handleData, h1, h2, h3, h4, h5]
  · intro h ht
    subst h
    constructor
    · simp [handleData, ht]
    · rw [show handleData now (some "timer") (some msg) st =
          addTimer now (jGetU msg "label") (jsNum (jGetU msg "duration_seconds")) st by
        simp [handleData, ht]]
      simp [addTimer]
  · intro h ht
    subst h
    simp [handleData, ht]
  · intro h
    subst h
    refine ⟨handleData_recipe_topic now msg st, ?_⟩
    rw [handleData_recipe_topic]
    exact ⟨(recipeBranch_frame msg st).1, (recipeBranch_frame msg st).2.2.1,
      (recipeBranch_frame msg st).2.2.2.1, (recipeBranch_frame msg st).2.2.2.2⟩
  · intro h ht
    subst h
    simp [handleData, ht]
  · intro h
    subst h
    refine ⟨handleData_grocery_topic now msg st, ?_⟩
    rw [handleData_grocery_topic]
    exact ⟨(groceryBranch_frame msg st).1, (groceryBranch_frame msg st).2.2.1,
      (groceryBranch_frame msg st).2.2.2.1, (groceryBranch_frame msg st).2.2.2.2⟩

/-- Witness for C1: a message on an unknown topic leaves a concrete state
unchanged. -/
theorem handleData_dispatch_spec_witness :
    handleData 0 (some "weather") (some (.obj [("type", .str "set_timer")]))
      initialUIState = initialUIState :=
  (handleData_dispatch_spec 0 (some "weather") (.obj [("type", .str "set_timer")])
    initialUIState).1 (by simp [reactsTo])

/-- Witness for C8: a concrete `step_update` with no recipe displayed changes
nothing. -/
theorem recipeNull_noop_witness :
    handleData 0 (some "recipe")
      (some (.obj [("type", .str "step_update"), ("step_number", .num 3)]))
      initialUIState = initialUIState :=
  recipeNull_noop 0 initialUIState
    (.obj [("type", .str "step_update"), ("step_number", .num 3)])
    "step_update" rfl (Or.inr (Or.inl rfl)) rfl
